import Mathlib

set_option maxRecDepth 8192

/-!
# Dataset catalog endpoints — shallow embedding

A shallow embedding of `airflow/api_connexion/endpoints/dataset_endpoint.py`:
the dataset catalog query and mutation layer exposing `get_dataset`,
`get_datasets`, `get_dataset_events` and `delete_dataset`.

The persistence engine is modelled as in-memory lists of rows.  Each list
endpoint returns, together with its outcome, the number of queries it issued
against the store before producing that outcome, so that properties about
*when* a validation error is raised relative to query execution can be
stated and settled.  Fallible operations return `Except ApiError _`.
-/

/-- Error taxonomy (spec §7): `NotFound` carries the title and detail strings
raised in the source; `Conflict` carries the detail of the raised `Conflict`;
`InvalidSortField` is the error raised by sort-field validation;
`InvalidParameter` is the error for pagination-parameter validation. -/
inductive ApiError where
  | notFound (title : String) (detail : String)
  | conflict (detail : String)
  | invalidSortField (detail : String)
  | invalidParameter (detail : String)
deriving DecidableEq

/-- A row of the DAG-schedule dataset reference table: a DAG consuming a
dataset (an element of `DatasetModel.consuming_dags`). -/
structure DagScheduleDatasetReference where
  dag_id : String
deriving DecidableEq

/-- A row of the task-outlet dataset reference table: a task producing a
dataset (an element of `DatasetModel.producing_tasks`). -/
structure TaskOutletDatasetReference where
  dag_id : String
  task_id : String
deriving DecidableEq

/-- `DatasetModel` (imported by the endpoint from `airflow.models.dataset`):
surrogate `id`, unique external `uri`, timestamps, and the two reference
relationships the endpoint reads. -/
structure DatasetModel where
  id : Int
  uri : String
  created_at : Nat
  updated_at : Nat
  consuming_dags : List DagScheduleDatasetReference
  producing_tasks : List TaskOutletDatasetReference
deriving DecidableEq

/-- `DatasetEvent` (imported by the endpoint from `airflow.models.dataset`):
append-only event rows with nullable provenance columns; `source_map_index`
is a non-null integer column (sentinel `-1` means "not a mapped task"). -/
structure DatasetEvent where
  id : Int
  dataset_id : Int
  source_dag_id : Option String
  source_task_id : Option String
  source_run_id : Option String
  source_map_index : Int
  timestamp : Nat
deriving DecidableEq

/-- Result wrapper of `get_datasets` (`DatasetCollection` in the schema). -/
structure DatasetCollection where
  datasets : List DatasetModel
  total_entries : Nat
deriving DecidableEq

/-- Result wrapper of `get_dataset_events` (`DatasetEventCollection`). -/
structure DatasetEventCollection where
  dataset_events : List DatasetEvent
  total_entries : Nat
deriving DecidableEq

/-- Does `needle` occur at the head of `haystack`? (helper for the substring
test used to model SQL `ILIKE '%p%'`). -/
def leadsList : List Char → List Char → Bool
  | [], _ => true
  | _ :: _, [] => false
  | a :: as, b :: bs => a == b && leadsList as bs

/-- Does `needle` occur contiguously anywhere inside `haystack`? -/
def occursIn (needle : List Char) : List Char → Bool
  | [] => needle.isEmpty
  | b :: t => leadsList needle (b :: t) || occursIn needle t

/-- `DatasetModel.uri.ilike(f"%{uri_pattern}%")` (source line 108): SQL
`ILIKE` with the pattern wrapped in `%` wildcards is a case-insensitive
substring test.  Wildcard characters occurring inside `uri_pattern` itself
are not modelled. -/
def ilikeContains (pattern uri : String) : Bool :=
  occursIn (pattern.toList.map Char.toLower) (uri.toList.map Char.toLower)

/-- `session.scalar(select(DatasetModel).where(DatasetModel.uri == uri))`:
the first stored dataset row whose `uri` equals the requested one, if any. -/
def find_dataset (uri : String) (datasets : List DatasetModel) :
    Option DatasetModel :=
  datasets.find? (fun d => d.uri == uri)

/-- `delete_dataset` (source lines 59–71): look the dataset up by `uri`;
`NotFound` when absent; `Conflict` when `consuming_dags` or `producing_tasks`
is nonempty (Python truthiness of the relationship collections); otherwise
`session.delete(dataset)` removes the found row and the call succeeds. -/
def delete_dataset (uri : String) (datasets : List DatasetModel) :
    Except ApiError (List DatasetModel) :=
  match find_dataset uri datasets with
  | none =>
      .error (.notFound "Dataset not found"
        ("The Dataset with uri: `" ++ uri ++ "` was not found"))
  | some dataset =>
      if !dataset.consuming_dags.isEmpty || !dataset.producing_tasks.isEmpty then
        .error (.conflict "Dataset is still referenced by other DAG")
      else
        .ok (datasets.eraseP (fun d => d.uri == uri))

/-- `get_dataset` (source lines 76–88): look the dataset up by `uri` (with its
relationships eagerly loaded — inline in this model); `NotFound` when absent. -/
def get_dataset (uri : String) (datasets : List DatasetModel) :
    Except ApiError DatasetModel :=
  match find_dataset uri datasets with
  | none =>
      .error (.notFound "Dataset not found"
        ("The Dataset with uri: `" ++ uri ++ "` was not found"))
  | some dataset => .ok dataset

/-- Modelled from the spec: `check_limit` (imported by the endpoint from
`airflow.api_connexion.parameters`, whose source is not under `src/`) —
"`limit` is mandatory and upper-bounded by a configured maximum"; a `limit`
exceeding the configured maximum is rejected with `InvalidParameter`. -/
def check_limit (maximum_page_limit : Nat) (limit : Nat) : Except ApiError Nat :=
  if maximum_page_limit < limit then
    .error (.invalidParameter "limit exceeds the configured maximum page limit")
  else
    .ok limit

/-- Modelled from the spec: the transport/validation layer (outside `src/`)
rejects a negative `offset` with `InvalidParameter` before any query
executes; an omitted `offset` defaults to `0` (the source declares the
parameter as `offset: int = 0`). -/
def check_offset : Option Int → Except ApiError Nat
  | none => .ok 0
  | some o =>
      if o < 0 then .error (.invalidParameter "offset must be non-negative")
      else .ok o.toNat

/-- Sort direction selected by the order-by token. -/
inductive SortDirection where
  | asc
  | desc
deriving DecidableEq

/-- Modelled from the spec: `apply_sorting` / `resolveSort` (imported by the
endpoint from `airflow.api_connexion.parameters`, whose source is not under
`src/`) — the requested field, with an optional leading `-` sigil selecting
descending order, must lie in the entity's allow-list; any other field is
rejected with `InvalidSortField` before the ordered row query is built. -/
def resolveSort (allowed_attrs : List String) (order_by : String) :
    Except ApiError (String × SortDirection) :=
  let descending := match order_by.toList with
    | '-' :: _ => true
    | _ => false
  let field := if descending then String.mk (order_by.toList.drop 1)
               else order_by
  let dir := if descending then SortDirection.desc else SortDirection.asc
  if allowed_attrs.contains field then
    .ok (field, dir)
  else
    .error (.invalidSortField ("Ordering with " ++ field ++ " is disallowed"))

/-- Insert into a sorted list, keeping earlier elements first on ties
(stable). -/
def insertLe (le : α → α → Bool) (a : α) : List α → List α
  | [] => [a]
  | b :: l => if le a b then a :: b :: l else b :: insertLe le a l

/-- Stable sort by a boolean "less-or-equal" test: models the deterministic
`ORDER BY` clause applied to the row query. -/
def sortByLe (le : α → α → Bool) : List α → List α
  | [] => []
  | a :: l => insertLe le a (sortByLe le l)

/-- Lexicographic "less-or-equal" on character lists by code point: models
the store's ordering on string columns. -/
def strLeList : List Char → List Char → Bool
  | [], _ => true
  | _ :: _, [] => false
  | a :: as, b :: bs =>
      if a.toNat < b.toNat then true
      else if b.toNat < a.toNat then false
      else strLeList as bs

/-- Lexicographic "less-or-equal" on strings. -/
def strLe (a b : String) : Bool := strLeList a.toList b.toList

/-- Comparison on the sortable `DatasetModel` columns, keyed by the resolved
field name (one of `dataset_allowed_attrs`; any other name falls back to
`id`, but `resolveSort` never produces one). -/
def datasetLe (field : String) (a b : DatasetModel) : Bool :=
  if field == "uri" then strLe a.uri b.uri
  else if field == "created_at" then decide (a.created_at ≤ b.created_at)
  else if field == "updated_at" then decide (a.updated_at ≤ b.updated_at)
  else decide (a.id ≤ b.id)

/-- Ordering on nullable string columns: `NULL`s sort first. -/
def optStrLe : Option String → Option String → Bool
  | none, _ => true
  | some _, none => false
  | some a, some b => strLe a b

/-- Comparison on the sortable `DatasetEvent` columns, keyed by the resolved
field name (one of `event_allowed_attrs`; any other name falls back to
`timestamp`, but `resolveSort` never produces one). -/
def eventLe (field : String) (a b : DatasetEvent) : Bool :=
  if field == "source_dag_id" then optStrLe a.source_dag_id b.source_dag_id
  else if field == "source_task_id" then optStrLe a.source_task_id b.source_task_id
  else if field == "source_run_id" then optStrLe a.source_run_id b.source_run_id
  else if field == "source_map_index" then
    decide (a.source_map_index ≤ b.source_map_index)
  else decide (a.timestamp ≤ b.timestamp)

/-- Apply the resolved direction to a sort. -/
def sortRows (le : α → α → Bool) (dir : SortDirection) (rows : List α) :
    List α :=
  match dir with
  | .asc => sortByLe le rows
  | .desc => sortByLe (fun a b => le b a) rows

/-- Allow-listed sort fields of `get_datasets` (source line 103). -/
def dataset_allowed_attrs : List String := ["id", "uri", "created_at", "updated_at"]

/-- Allow-listed sort fields of `get_dataset_events` (source line 134). -/
def event_allowed_attrs : List String :=
  ["source_dag_id", "source_task_id", "source_run_id", "source_map_index",
   "timestamp"]

/-- The filter stage of `get_datasets` (source lines 106–108): the
`uri_pattern` clause is appended only when the parameter is truthy — Python
`if uri_pattern:` treats `None` and the empty string as "no filter". -/
def dataset_query (uri_pattern : Option String)
    (datasets : List DatasetModel) : List DatasetModel :=
  match uri_pattern with
  | some p =>
      if p != "" then datasets.filter (fun d => ilikeContains p d.uri)
      else datasets
  | none => datasets

/-- The filter stage of `get_dataset_events` (source lines 136–147): each
clause is appended only when its parameter is truthy — Python `if param:`
treats `None`, `0` and the empty string as "no filter".  Equality against a
`NULL` column never matches (SQL three-valued logic), which `Option`
equality models. -/
def event_query (dataset_id : Option Int) (source_dag_id : Option String)
    (source_task_id : Option String) (source_run_id : Option String)
    (source_map_index : Option Int) (events : List DatasetEvent) :
    List DatasetEvent :=
  let query := events
  let query := match dataset_id with
    | some v => if v != 0 then query.filter (fun e => e.dataset_id == v)
                else query
    | none => query
  let query := match source_dag_id with
    | some v => if v != "" then query.filter (fun e => e.source_dag_id == some v)
                else query
    | none => query
  let query := match source_task_id with
    | some v => if v != "" then query.filter (fun e => e.source_task_id == some v)
                else query
    | none => query
  let query := match source_run_id with
    | some v => if v != "" then query.filter (fun e => e.source_run_id == some v)
                else query
    | none => query
  let query := match source_map_index with
    | some v => if v != 0 then query.filter (fun e => e.source_map_index == v)
                else query
    | none => query
  query

/-- `get_datasets` (source lines 94–115).  Returns the number of queries
issued against the store together with the outcome.  Faithful to the source
order of operations: `check_limit` (and the transport layer's offset
validation) run first; the count query of source line 105 is executed over
the *whole* table — before the `uri_pattern` filter is attached and before
`apply_sorting` validates `order_by`; the ordered, paginated row query runs
last. -/
def get_datasets (maximum_page_limit : Nat) (limit : Nat)
    (offset : Option Int) (uri_pattern : Option String) (order_by : String)
    (datasets : List DatasetModel) :
    Nat × Except ApiError DatasetCollection :=
  match check_limit maximum_page_limit limit with
  | .error e => (0, .error e)
  | .ok limit =>
    match check_offset offset with
    | .error e => (0, .error e)
    | .ok offset =>
      let total_entries := datasets.length
      let query := dataset_query uri_pattern datasets
      match resolveSort dataset_allowed_attrs order_by with
      | .error e => (1, .error e)
      | .ok fd =>
        let rows :=
          ((sortRows (datasetLe fd.1) fd.2 query).drop offset).take limit
        (2, .ok { datasets := rows, total_entries := total_entries })

/-- `get_dataset_events` (source lines 121–156).  Returns the number of
queries issued against the store together with the outcome.  Faithful to the
source order of operations: parameter validation first; the filtered count
query (`get_query_count`, source line 151) executes before `apply_sorting`
validates `order_by`; the ordered, paginated row query runs last. -/
def get_dataset_events (maximum_page_limit : Nat) (limit : Nat)
    (offset : Option Int) (order_by : String) (dataset_id : Option Int)
    (source_dag_id : Option String) (source_task_id : Option String)
    (source_run_id : Option String) (source_map_index : Option Int)
    (events : List DatasetEvent) :
    Nat × Except ApiError DatasetEventCollection :=
  match check_limit maximum_page_limit limit with
  | .error e => (0, .error e)
  | .ok limit =>
    match check_offset offset with
    | .error e => (0, .error e)
    | .ok offset =>
      let query := event_query dataset_id source_dag_id source_task_id
        source_run_id source_map_index events
      let total_entries := query.length
      match resolveSort event_allowed_attrs order_by with
      | .error e => (1, .error e)
      | .ok fd =>
        let rows := ((sortRows (eventLe fd.1) fd.2 query).drop offset).take limit
        (2, .ok { dataset_events := rows, total_entries := total_entries })

/-! ## Concrete example rows used by witnesses and counterexamples -/

/-- A consuming-DAG reference row. -/
def exConsumingRef : DagScheduleDatasetReference := ⟨"dag1"⟩

/-- A producing-task reference row. -/
def exProducingRef : TaskOutletDatasetReference := ⟨"dag1", "task1"⟩

/-- An unreferenced dataset row. -/
def exDatasetA : DatasetModel := ⟨1, "s3://a", 0, 0, [], []⟩

/-- A second unreferenced dataset row. -/
def exDatasetB : DatasetModel := ⟨2, "s3://b", 10, 10, [], []⟩

/-- A third unreferenced dataset row, with a mixed-case uri. -/
def exDatasetBucket : DatasetModel := ⟨3, "s3://Bucket/Key", 20, 20, [], []⟩

/-- A dataset row referenced only by a consuming DAG. -/
def exDatasetConsumed : DatasetModel := ⟨4, "s3://c", 0, 0, [exConsumingRef], []⟩

/-- A dataset row referenced only by a producing task. -/
def exDatasetProduced : DatasetModel := ⟨5, "s3://t", 0, 0, [], [exProducingRef]⟩

/-- A dataset event row. -/
def exEvent : DatasetEvent := ⟨1, 5, some "dagx", some "taskx", some "runx", 2, 7⟩

/-! ## Helper lemmas -/

/-- Erasing the first match from a list containing at most one match leaves a
list with no match: the key step showing a deleted `uri` is no longer
findable when `uri` is unique in the store. -/
theorem find?_eraseP_of_countP_le_one {α : Type} (p : α → Bool) (l : List α)
    (h : l.countP p ≤ 1) : (l.eraseP p).find? p = none := by
  induction l with
  | nil => rfl
  | cons a t ih =>
    by_cases hpa : p a = true
    · rw [List.eraseP_cons_of_pos hpa, List.find?_eq_none]
      intro x hx hpx
      have h0 : t.countP p = 0 := by
        have h1 := h
        rw [List.countP_cons_of_pos p t hpa] at h1
        omega
      exact (List.countP_eq_zero.mp h0 x hx) hpx
    · rw [List.eraseP_cons_of_neg hpa, List.find?_cons_of_neg _ hpa]
      refine ih ?_
      have h1 := h
      rw [List.countP_cons] at h1
      simp [hpa] at h1
      exact h1

/-! ## Claims -/

/-- C1: for every dataset whose `consuming_dags` set or `producing_tasks` set
is nonempty, `delete_dataset` on that dataset's uri fails with `Conflict`,
no delete is issued (the call returns no new store state), and a subsequent
`get_dataset` on the same uri against the untouched store returns the same
dataset. -/
theorem c1_delete_referenced_conflict_row_intact
    (uri : String) (datasets : List DatasetModel) (d : DatasetModel)
    (hfind : find_dataset uri datasets = some d)
    (href : d.consuming_dags ≠ [] ∨ d.producing_tasks ≠ []) :
    delete_dataset uri datasets =
      .error (.conflict "Dataset is still referenced by other DAG") ∧
    get_dataset uri datasets = .ok d := by
  have hguard : (!d.consuming_dags.isEmpty || !d.producing_tasks.isEmpty) = true := by
    cases hc : d.consuming_dags <;> cases hp : d.producing_tasks <;> simp_all
  refine ⟨?_, ?_⟩
  · simp [delete_dataset, hfind, hguard]
  · simp [get_dataset, hfind]

/-- C1 witness: a dataset with one consuming DAG cannot be deleted and is
still returned unchanged by `get_dataset`. -/
theorem c1_delete_referenced_conflict_row_intact_witness :
    delete_dataset "s3://c" [exDatasetConsumed] =
      .error (.conflict "Dataset is still referenced by other DAG") ∧
    get_dataset "s3://c" [exDatasetConsumed] = .ok exDatasetConsumed :=
  c1_delete_referenced_conflict_row_intact "s3://c" [exDatasetConsumed]
    exDatasetConsumed rfl (Or.inl (by decide))

/-- C5: deleting a dataset with empty `consuming_dags` and empty
`producing_tasks` succeeds and removes the row, so that a subsequent
`get_dataset` on the same uri fails with `NotFound` (given that `uri` is
unique in the store, as the spec requires); and for a uri with no matching
dataset, both `delete_dataset` and `get_dataset` fail with `NotFound`. -/
theorem c5_delete_unreferenced_succeeds_then_not_found :
    (∀ (uri : String) (datasets : List DatasetModel) (d : DatasetModel),
       find_dataset uri datasets = some d →
       d.consuming_dags = [] → d.producing_tasks = [] →
       datasets.countP (fun x => x.uri == uri) ≤ 1 →
       delete_dataset uri datasets =
         .ok (datasets.eraseP (fun x => x.uri == uri)) ∧
       get_dataset uri (datasets.eraseP (fun x => x.uri == uri)) =
         .error (.notFound "Dataset not found"
           ("The Dataset with uri: `" ++ uri ++ "` was not found"))) ∧
    (∀ (uri : String) (datasets : List DatasetModel),
       find_dataset uri datasets = none →
       delete_dataset uri datasets =
         .error (.notFound "Dataset not found"
           ("The Dataset with uri: `" ++ uri ++ "` was not found")) ∧
       get_dataset uri datasets =
         .error (.notFound "Dataset not found"
           ("The Dataset with uri: `" ++ uri ++ "` was not found"))) := by
  constructor
  · intro uri ds d hfind hc hp hcount
    refine ⟨?_, ?_⟩
    · simp [delete_dataset, hfind, hc, hp]
    · have hnone : (ds.eraseP (fun x => x.uri == uri)).find?
          (fun x => x.uri == uri) = none :=
        find?_eraseP_of_countP_le_one _ _ hcount
      simp [get_dataset, find_dataset, hnone]
  · intro uri ds hfind
    exact ⟨by simp [delete_dataset, hfind], by simp [get_dataset, hfind]⟩

/-- C5 witness: deleting the unreferenced dataset `s3://a` succeeds and a
subsequent get is `NotFound`; a missing uri is `NotFound` for both
operations. -/
theorem c5_delete_unreferenced_succeeds_then_not_found_witness :
    (delete_dataset "s3://a" [exDatasetA] =
       .ok ([exDatasetA].eraseP (fun x => x.uri == "s3://a")) ∧
     get_dataset "s3://a" ([exDatasetA].eraseP (fun x => x.uri == "s3://a")) =
       .error (.notFound "Dataset not found"
         ("The Dataset with uri: `" ++ "s3://a" ++ "` was not found"))) ∧
    (delete_dataset "s3://missing" [exDatasetA] =
       .error (.notFound "Dataset not found"
         ("The Dataset with uri: `" ++ "s3://missing" ++ "` was not found")) ∧
     get_dataset "s3://missing" [exDatasetA] =
       .error (.notFound "Dataset not found"
         ("The Dataset with uri: `" ++ "s3://missing" ++ "` was not found"))) :=
  ⟨c5_delete_unreferenced_succeeds_then_not_found.1 "s3://a" [exDatasetA]
     exDatasetA rfl rfl rfl (by decide),
   c5_delete_unreferenced_succeeds_then_not_found.2 "s3://missing"
     [exDatasetA] rfl⟩

/-- C9 counterexample: the claim says the Conflict message names the kind of
the referencing entities according to which set is nonempty.  In the code the
message is a single fixed string.  For a dataset referenced only by a
producing task the raised detail still reads "Dataset is still referenced by
other DAG" — identical to the message for a dataset referenced only by a
consuming DAG — and the word "task" never occurs in it, so the message does
not name producing tasks when `producing_tasks` is the nonempty set. -/
theorem c9_counterexample :
    delete_dataset "s3://t" [exDatasetProduced] =
      .error (.conflict "Dataset is still referenced by other DAG") ∧
    delete_dataset "s3://c" [exDatasetConsumed] =
      .error (.conflict "Dataset is still referenced by other DAG") ∧
    occursIn "task".toList
      "Dataset is still referenced by other DAG".toList = false :=
  ⟨rfl, rfl, rfl⟩

/-- C9 (amended): whenever `delete_dataset` is blocked by the
referential-integrity guard, the raised `Conflict` carries the fixed
explanatory message "Dataset is still referenced by other DAG", regardless of
whether `consuming_dags` or `producing_tasks` is the nonempty set. -/
theorem c9_conflict_detail_is_fixed
    (uri : String) (datasets : List DatasetModel) (s : String)
    (h : delete_dataset uri datasets = .error (.conflict s)) :
    s = "Dataset is still referenced by other DAG" := by
  unfold delete_dataset at h
  cases hfind : find_dataset uri datasets with
  | none => rw [hfind] at h; simp at h
  | some d =>
    rw [hfind] at h
    by_cases hg : (!d.consuming_dags.isEmpty || !d.producing_tasks.isEmpty) = true
    · simp [hg] at h
      exact h.symm
    · simp [hg] at h

/-- C9 witness: the amended theorem applied at a dataset referenced only by a
producing task. -/
theorem c9_conflict_detail_is_fixed_witness :
    "Dataset is still referenced by other DAG" =
      "Dataset is still referenced by other DAG" :=
  c9_conflict_detail_is_fixed "s3://t" [exDatasetProduced]
    "Dataset is still referenced by other DAG" rfl

/-- C2: evaluation exhibiting the divergence.  With a store of two datasets
of which exactly one matches `uri_pattern = "a"`, `get_datasets` returns the
matching row only, yet reports `total_entries = 2`: the count query of
source line 105 runs over the whole table before the `uri_pattern` filter is
attached, so `total_entries` is the unfiltered count, not the filtered count
of 1 that the claim (and the spec's pagination contract) requires. -/
theorem c2_total_entries_ignores_uri_pattern :
    get_datasets 100 10 none (some "a") "id" [exDatasetA, exDatasetB] =
      (2, .ok { datasets := [exDatasetA], total_entries := 2 }) ∧
    (dataset_query (some "a") [exDatasetA, exDatasetB]).length = 1 :=
  ⟨rfl, rfl⟩

/-- C3 counterexample: with `order_by = "nonexistent_field"` both endpoints
do fail with `InvalidSortField`, but the first component of the result — the
number of queries executed against the store before the failure — is 1, not
0: the count query (source lines 105 and 151) has already executed when sort
validation raises, refuting "no query is executed against the store". -/
theorem c3_counterexample :
    get_datasets 100 10 none none "nonexistent_field" [exDatasetA] =
      (1, .error
        (.invalidSortField "Ordering with nonexistent_field is disallowed")) ∧
    get_dataset_events 100 10 none "nonexistent_field" none none none none
      none [exEvent] =
      (1, .error
        (.invalidSortField "Ordering with nonexistent_field is disallowed")) :=
  ⟨rfl, rfl⟩

/-- C3 (amended): for every `order_by` value outside the entity's
allow-list, both `get_datasets` and `get_dataset_events` fail with
`InvalidSortField` before the row query is executed — but after the count
query has already been executed (exactly one store query is issued). -/
theorem c3_invalid_sort_raised_after_count_query :
    (∀ (mpl limit : Nat) (offset : Option Int) (k : Nat) (up : Option String)
       (ob : String) (ds : List DatasetModel) (e : ApiError),
       limit ≤ mpl → check_offset offset = .ok k →
       resolveSort dataset_allowed_attrs ob = .error e →
       get_datasets mpl limit offset up ob ds = (1, .error e)) ∧
    (∀ (mpl limit : Nat) (offset : Option Int) (k : Nat) (ob : String)
       (di : Option Int) (sd stk sr : Option String) (smi : Option Int)
       (ev : List DatasetEvent) (e : ApiError),
       limit ≤ mpl → check_offset offset = .ok k →
       resolveSort event_allowed_attrs ob = .error e →
       get_dataset_events mpl limit offset ob di sd stk sr smi ev =
         (1, .error e)) := by
  constructor
  · intro mpl limit offset k up ob ds e hlim hoff hsort
    simp [get_datasets, check_limit, Nat.not_lt.mpr hlim, hoff, hsort]
  · intro mpl limit offset k ob di sd stk sr smi ev e hlim hoff hsort
    simp [get_dataset_events, check_limit, Nat.not_lt.mpr hlim, hoff, hsort]

/-- C3 witness: the amended theorem applied at a concrete disallowed sort
field for both endpoints. -/
theorem c3_invalid_sort_raised_after_count_query_witness :
    get_datasets 100 10 none none "nonexistent_field" [] =
      (1, .error
        (.invalidSortField "Ordering with nonexistent_field is disallowed")) ∧
    get_dataset_events 100 10 none "nonexistent_field" none none none none
      none [] =
      (1, .error
        (.invalidSortField "Ordering with nonexistent_field is disallowed")) :=
  ⟨c3_invalid_sort_raised_after_count_query.1 100 10 none 0 none
     "nonexistent_field" []
     (.invalidSortField "Ordering with nonexistent_field is disallowed")
     (by decide) rfl rfl,
   c3_invalid_sort_raised_after_count_query.2 100 10 none 0
     "nonexistent_field" none none none none none []
     (.invalidSortField "Ordering with nonexistent_field is disallowed")
     (by decide) rfl rfl⟩

/-- C4: supplying a falsy value for any `get_dataset_events` filter
parameter — `0` for the integer filters `dataset_id` and `source_map_index`,
the empty string for the string filters — returns exactly the same result as
omitting the parameter, because the source guards every clause with a Python
truthiness test (`if param:`). -/
theorem c4_falsy_filter_values_are_no_filter :
    ∀ (mpl limit : Nat) (offset : Option Int) (ob : String)
      (di smi : Option Int) (sd stk sr : Option String)
      (ev : List DatasetEvent),
      get_dataset_events mpl limit offset ob (some 0) sd stk sr smi ev =
        get_dataset_events mpl limit offset ob none sd stk sr smi ev ∧
      get_dataset_events mpl limit offset ob di (some "") stk sr smi ev =
        get_dataset_events mpl limit offset ob di none stk sr smi ev ∧
      get_dataset_events mpl limit offset ob di sd (some "") sr smi ev =
        get_dataset_events mpl limit offset ob di sd none sr smi ev ∧
      get_dataset_events mpl limit offset ob di sd stk (some "") smi ev =
        get_dataset_events mpl limit offset ob di sd stk none smi ev ∧
      get_dataset_events mpl limit offset ob di sd stk sr (some 0) ev =
        get_dataset_events mpl limit offset ob di sd stk sr none ev :=
  fun _ _ _ _ _ _ _ _ _ _ => ⟨rfl, rfl, rfl, rfl, rfl⟩

/-- C6: the `uri_pattern` filter of `get_datasets` is a case-insensitive
substring match — a dataset is included iff its uri contains the pattern
ignoring case (in particular uri "s3://Bucket/Key" matches pattern
"bucket") — while every other filter in the core (the five
`get_dataset_events` filters) is an exact-equality match. -/
theorem c6_uri_pattern_substring_others_exact :
    (∀ (p : String) (ds : List DatasetModel) (d : DatasetModel), p ≠ "" →
       (d ∈ dataset_query (some p) ds ↔
         d ∈ ds ∧ ilikeContains p d.uri = true)) ∧
    ilikeContains "bucket" "s3://Bucket/Key" = true ∧
    (∀ (v : Int) (ev : List DatasetEvent) (e : DatasetEvent), v ≠ 0 →
       (e ∈ event_query (some v) none none none none ev ↔
         e ∈ ev ∧ e.dataset_id = v)) ∧
    (∀ (v : String) (ev : List DatasetEvent) (e : DatasetEvent), v ≠ "" →
       (e ∈ event_query none (some v) none none none ev ↔
         e ∈ ev ∧ e.source_dag_id = some v)) ∧
    (∀ (v : String) (ev : List DatasetEvent) (e : DatasetEvent), v ≠ "" →
       (e ∈ event_query none none (some v) none none ev ↔
         e ∈ ev ∧ e.source_task_id = some v)) ∧
    (∀ (v : String) (ev : List DatasetEvent) (e : DatasetEvent), v ≠ "" →
       (e ∈ event_query none none none (some v) none ev ↔
         e ∈ ev ∧ e.source_run_id = some v)) ∧
    (∀ (v : Int) (ev : List DatasetEvent) (e : DatasetEvent), v ≠ 0 →
       (e ∈ event_query none none none none (some v) ev ↔
         e ∈ ev ∧ e.source_map_index = v)) := by
  refine ⟨?_, rfl, ?_, ?_, ?_, ?_, ?_⟩
  · intro p ds d hp
    simp [dataset_query, hp, List.mem_filter]
  · intro v ev e hv
    simp [event_query, hv, List.mem_filter]
  · intro v ev e hv
    simp [event_query, hv, List.mem_filter]
  · intro v ev e hv
    simp [event_query, hv, List.mem_filter]
  · intro v ev e hv
    simp [event_query, hv, List.mem_filter]
  · intro v ev e hv
    simp [event_query, hv, List.mem_filter]

/-- C6 witness: the substring rule and an exact-equality rule applied at
concrete rows. -/
theorem c6_uri_pattern_substring_others_exact_witness :
    ("bu" ≠ "" ∧
      (exDatasetBucket ∈ dataset_query (some "bu") [exDatasetBucket] ↔
        exDatasetBucket ∈ [exDatasetBucket] ∧
        ilikeContains "bu" exDatasetBucket.uri = true)) ∧
    ((5 : Int) ≠ 0 ∧
      (exEvent ∈ event_query (some 5) none none none none [exEvent] ↔
        exEvent ∈ [exEvent] ∧ exEvent.dataset_id = 5)) :=
  ⟨⟨by decide,
    c6_uri_pattern_substring_others_exact.1 "bu" [exDatasetBucket]
      exDatasetBucket (by decide)⟩,
   ⟨by decide,
    c6_uri_pattern_substring_others_exact.2.2.1 5 [exEvent] exEvent
      (by decide)⟩⟩

/-- C7: whenever `get_dataset_events` succeeds, the reported `total_entries`
equals the number of events matching the supplied filters in the store — the
unpaginated filtered count.  The right-hand side does not mention `limit` or
`offset`, so `total_entries` is the same for all values of both. -/
theorem c7_events_total_entries_is_filtered_unpaginated_count :
    ∀ (mpl limit : Nat) (offset : Option Int) (ob : String)
      (di : Option Int) (sd stk sr : Option String) (smi : Option Int)
      (ev : List DatasetEvent) (n : Nat) (coll : DatasetEventCollection),
      get_dataset_events mpl limit offset ob di sd stk sr smi ev =
        (n, .ok coll) →
      coll.total_entries = (event_query di sd stk sr smi ev).length := by
  intro mpl limit offset ob di sd stk sr smi ev n coll h
  unfold get_dataset_events at h
  cases hcl : check_limit mpl limit with
  | error e => rw [hcl] at h; simp at h
  | ok l =>
    rw [hcl] at h
    cases hco : check_offset offset with
    | error e => rw [hco] at h; simp at h
    | ok k =>
      rw [hco] at h
      cases hrs : resolveSort event_allowed_attrs ob with
      | error e => rw [hrs] at h; simp at h
      | ok fd =>
        rw [hrs] at h
        simp at h
        rw [← h.2]

/-- C7 witness: a concrete successful call whose `total_entries` is the
filtered unpaginated count. -/
theorem c7_events_total_entries_witness :
    ({ dataset_events := [exEvent], total_entries := 1 } :
        DatasetEventCollection).total_entries =
      (event_query none none none none none [exEvent]).length :=
  c7_events_total_entries_is_filtered_unpaginated_count 100 10 none
    "timestamp" none none none none none [exEvent] 2
    { dataset_events := [exEvent], total_entries := 1 } rfl

/-- C8: for valid parameters, both list endpoints return the rows obtained by
sorting the filtered set first, then dropping `offset` rows, then taking at
most `limit` rows — so at most `limit` items are returned, `offset` is
applied before `limit`, ordering is applied before pagination, and
pagination is applied only to the row query while `total_entries` is
computed without `drop`/`take`. -/
theorem c8_pagination_applies_to_row_query_only :
    (∀ (mpl limit : Nat) (offset : Option Int) (k : Nat) (up : Option String)
       (ob : String) (ds : List DatasetModel) (f : String)
       (dir : SortDirection),
       limit ≤ mpl → check_offset offset = .ok k →
       resolveSort dataset_allowed_attrs ob = .ok (f, dir) →
       get_datasets mpl limit offset up ob ds =
         (2, .ok ⟨(((sortRows (datasetLe f) dir (dataset_query up ds)).drop
             k).take limit), ds.length⟩) ∧
       (((sortRows (datasetLe f) dir (dataset_query up ds)).drop k).take
           limit).length ≤ limit) ∧
    (∀ (mpl limit : Nat) (offset : Option Int) (k : Nat) (ob : String)
       (di : Option Int) (sd stk sr : Option String) (smi : Option Int)
       (ev : List DatasetEvent) (f : String) (dir : SortDirection),
       limit ≤ mpl → check_offset offset = .ok k →
       resolveSort event_allowed_attrs ob = .ok (f, dir) →
       get_dataset_events mpl limit offset ob di sd stk sr smi ev =
         (2, .ok ⟨(((sortRows (eventLe f) dir
             (event_query di sd stk sr smi ev)).drop k).take limit),
           (event_query di sd stk sr smi ev).length⟩) ∧
       (((sortRows (eventLe f) dir
           (event_query di sd stk sr smi ev)).drop k).take limit).length ≤
         limit) := by
  constructor
  · intro mpl limit offset k up ob ds f dir hlim hoff hsort
    refine ⟨?_, ?_⟩
    · simp [get_datasets, check_limit, Nat.not_lt.mpr hlim, hoff, hsort]
    · rw [List.length_take]
      exact Nat.min_le_left _ _
  · intro mpl limit offset k ob di sd stk sr smi ev f dir hlim hoff hsort
    refine ⟨?_, ?_⟩
    · simp [get_dataset_events, check_limit, Nat.not_lt.mpr hlim, hoff, hsort]
    · rw [List.length_take]
      exact Nat.min_le_left _ _

/-- C8 witness: a concrete page of each endpoint, with `limit = 2` and
`offset = 1` over a three-row store. -/
theorem c8_pagination_applies_to_row_query_only_witness :
    (get_datasets 100 2 (some 1) none "id"
       [exDatasetA, exDatasetB, exDatasetBucket] =
       (2, .ok ⟨(((sortRows (datasetLe "id") SortDirection.asc
             (dataset_query none
               [exDatasetA, exDatasetB, exDatasetBucket])).drop 1).take 2),
           [exDatasetA, exDatasetB, exDatasetBucket].length⟩) ∧
     (((sortRows (datasetLe "id") SortDirection.asc
         (dataset_query none
           [exDatasetA, exDatasetB, exDatasetBucket])).drop 1).take 2).length ≤
       2) ∧
    (get_dataset_events 100 2 (some 1) "timestamp" none none none none none
       [exEvent] =
       (2, .ok ⟨(((sortRows (eventLe "timestamp") SortDirection.asc
             (event_query none none none none none [exEvent])).drop 1).take 2),
           (event_query none none none none none [exEvent]).length⟩) ∧
     (((sortRows (eventLe "timestamp") SortDirection.asc
         (event_query none none none none none [exEvent])).drop 1).take
         2).length ≤ 2) :=
  ⟨c8_pagination_applies_to_row_query_only.1 100 2 (some 1) 1 none "id"
     [exDatasetA, exDatasetB, exDatasetBucket] "id" SortDirection.asc
     (by decide) rfl rfl,
   c8_pagination_applies_to_row_query_only.2 100 2 (some 1) 1 "timestamp"
     none none none none none [exEvent] "timestamp" SortDirection.asc
     (by decide) rfl rfl⟩

/-- C10: a negative `offset` is rejected with `InvalidParameter` by both list
endpoints before any query executes (the query counter is 0), and an omitted
`offset` behaves exactly like `offset = 0`. -/
theorem c10_negative_offset_rejected_omitted_defaults_zero :
    (∀ (mpl limit : Nat) (off : Int) (up : Option String) (ob : String)
       (ds : List DatasetModel), limit ≤ mpl → off < 0 →
       get_datasets mpl limit (some off) up ob ds =
         (0, .error (.invalidParameter "offset must be non-negative"))) ∧
    (∀ (mpl limit : Nat) (off : Int) (ob : String) (di : Option Int)
       (sd stk sr : Option String) (smi : Option Int)
       (ev : List DatasetEvent), limit ≤ mpl → off < 0 →
       get_dataset_events mpl limit (some off) ob di sd stk sr smi ev =
         (0, .error (.invalidParameter "offset must be non-negative"))) ∧
    (∀ (mpl limit : Nat) (up : Option String) (ob : String)
       (ds : List DatasetModel),
       get_datasets mpl limit none up ob ds =
         get_datasets mpl limit (some 0) up ob ds) ∧
    (∀ (mpl limit : Nat) (ob : String) (di : Option Int)
       (sd stk sr : Option String) (smi : Option Int)
       (ev : List DatasetEvent),
       get_dataset_events mpl limit none ob di sd stk sr smi ev =
         get_dataset_events mpl limit (some 0) ob di sd stk sr smi ev) := by
  refine ⟨?_, ?_, ?_, ?_⟩
  · intro mpl limit off up ob ds hlim hoff
    simp [get_datasets, check_limit, check_offset, Nat.not_lt.mpr hlim, hoff]
  · intro mpl limit off ob di sd stk sr smi ev hlim hoff
    simp [get_dataset_events, check_limit, check_offset,
      Nat.not_lt.mpr hlim, hoff]
  · intro mpl limit up ob ds
    rfl
  · intro mpl limit ob di sd stk sr smi ev
    rfl

/-- C10 witness: `offset = -1` is rejected by both endpoints with no query
executed. -/
theorem c10_negative_offset_rejected_witness :
    get_datasets 100 10 (some (-1)) none "id" [exDatasetA] =
      (0, .error (.invalidParameter "offset must be non-negative")) ∧
    get_dataset_events 100 10 (some (-1)) "timestamp" none none none none
      none [exEvent] =
      (0, .error (.invalidParameter "offset must be non-negative")) :=
  ⟨c10_negative_offset_rejected_omitted_defaults_zero.1 100 10 (-1) none "id"
     [exDatasetA] (by decide) (by decide),
   c10_negative_offset_rejected_omitted_defaults_zero.2.1 100 10 (-1)
     "timestamp" none none none none none [exEvent] (by decide) (by decide)⟩
